import Mathlib

/-!
Verification of the zMail proof-generation service (src/proof-service/src/main.rs).

The Rust service is embedded shallowly:
  * filesystem state, current directory, executable path, home directory and the
    proving library's own default-location lookup are abstracted into an `Env`
    record (the code only ever observes them through `exists()`-style probes);
  * paths are lists of components; `Path::parent` drops the last component and
    fails at the root;
  * JSON values (`serde_json::Value`) are the inductive `JValue`; numbers carry
    serde_json's three-way representation (unsigned 64-bit, negative 64-bit,
    float), which is all `as_u64`/`as_str` can observe;
  * `Result<T, String>` is `RRes T`; a Rust panic is modelled as `Option.none`
    at the handler boundary where one can occur (`build_transaction`'s byte
    slicing of address previews);
  * HTTP responses are records of a status code and the serialized body.

All definitions are transcribed from the source; theorems then settle the
frozen claims about them.
-/

set_option autoImplicit false
set_option maxRecDepth 8192

namespace ZMail

/-- A filesystem path, as the list of its components. `[]` is the root (a path
with no parent). `PathBuf::join` is list append. -/
abbrev Path := List String

/-- `Path::parent()`: drop the last component; the root has no parent. -/
def parentDir : Path → Option Path
  | [] => none
  | p => some p.dropLast

/-- The ambient process environment observed by the service: an existence
predicate on paths (`std::path::Path::exists`), the outcomes of
`env::current_dir()`, `env::current_exe()` and `dirs::home_dir()`, whether the
proving library's own `LocalTxProver::with_default_location()` succeeds, the
rendering of paths used by `{:?}` formatting, and file sizes in MB as computed
by `metadata().len()/1024/1024` with `unwrap_or(0)`. -/
structure Env where
  fs : Path → Bool
  cwd : Option Path
  exePath : Option Path
  home : Option Path
  defaultAvailable : Bool
  reprPath : Path → String
  fileSizeMB : Path → Nat

/-- `sapling-spend.params`, the first required parameter file. -/
def spendFile : String := "sapling-spend.params"

/-- `sapling-output.params`, the second required parameter file. -/
def outFile : String := "sapling-output.params"

/-- Both required parameter files exist directly under the directory `d`
(the conjunction of the two `exists()` probes the source performs at every
candidate). -/
def hasParams (env : Env) (d : Path) : Bool :=
  env.fs (d ++ [spendFile]) && env.fs (d ++ [outFile])

/-- The `for _ in 0..5` ancestor loop of `find_params_dir`: probe
`dir/params`, then move to the parent, breaking at the root; at most `fuel`
probes. -/
def walkUp (env : Env) : Path → Nat → Option Path
  | _, 0 => none
  | dir, fuel + 1 =>
    if hasParams env (dir ++ ["params"]) then some (dir ++ ["params"])
    else
      match parentDir dir with
      | some p => walkUp env p fuel
      | none => none

/-- The current-working-directory block of `find_params_dir` (lines 55-85):
the direct `cwd/params` probe followed by the 5-iteration ancestor loop that
starts again at `cwd`. -/
def cwdSearch (env : Env) : Option Path :=
  match env.cwd with
  | some cwd =>
    if hasParams env (cwd ++ ["params"]) then some (cwd ++ ["params"])
    else walkUp env cwd 5
  | none => none

/-- The executable-relative block of `find_params_dir` (lines 88-111): the
5-iteration ancestor loop starting at the executable's directory. -/
def exeSearch (env : Env) : Option Path :=
  match env.exePath with
  | some exe =>
    match parentDir exe with
    | some exeDir => walkUp env exeDir 5
    | none => none
  | none => none

/-- The home-directory fallback of `find_params_dir` (lines 114-124):
`~/.zcash-params`, probed directly. -/
def homeSearch (env : Env) : Option Path :=
  match env.home with
  | some home =>
    if hasParams env (home ++ [".zcash-params"]) then some (home ++ [".zcash-params"])
    else none
  | none => none

/-- `find_params_dir` (lines 51-128): the three blocks in source order, each
early-returning on success. -/
def find_params_dir (env : Env) : Option Path :=
  match cwdSearch env with
  | some p => some p
  | none =>
    match exeSearch env with
    | some p => some p
    | none => homeSearch env

/-- The candidate `params` directories probed by one run of the ancestor loop,
in probe order. -/
def chainUp : Path → Nat → List Path
  | _, 0 => []
  | dir, fuel + 1 =>
    (dir ++ ["params"]) ::
      (match parentDir dir with
       | some p => chainUp p fuel
       | none => [])

/-- Every candidate directory `find_params_dir` probes, in probe order.
Note the actual order: `cwd/params` directly, then the ancestor loop that
probes `cwd/params` a second time followed by at most four proper ancestors,
then the executable's directory and at most four of its proper ancestors,
then `~/.zcash-params`. -/
def candidates (env : Env) : List Path :=
  (match env.cwd with
   | some cwd => (cwd ++ ["params"]) :: chainUp cwd 5
   | none => []) ++
  (match env.exePath with
   | some exe =>
     match parentDir exe with
     | some exeDir => chainUp exeDir 5
     | none => []
   | none => []) ++
  (match env.home with
   | some home => [home ++ [".zcash-params"]]
   | none => [])

/-- `find?` distributes over append, preferring the left list. -/
theorem find?_append {α : Type} (p : α → Bool) (l₁ l₂ : List α) :
    (l₁ ++ l₂).find? p =
      match l₁.find? p with
      | some a => some a
      | none => l₂.find? p := by
  induction l₁ with
  | nil => simp
  | cons a l ih =>
    by_cases h : p a = true
    · simp [List.find?, h]
    · simp only [Bool.not_eq_true] at h
      simp [List.find?, h, ih]

/-- The ancestor loop returns the first complete candidate along its chain. -/
theorem walkUp_eq_find? (env : Env) (fuel : Nat) :
    ∀ dir : Path, walkUp env dir fuel = (chainUp dir fuel).find? (hasParams env) := by
  induction fuel with
  | zero => intro dir; rfl
  | succ n ih =>
    intro dir
    rw [walkUp, chainUp]
    by_cases h : hasParams env (dir ++ ["params"]) = true
    · simp [List.find?, h]
    · simp only [Bool.not_eq_true] at h
      cases hp : parentDir dir with
      | none => simp [List.find?, h]
      | some p => simp [List.find?, h, ih]

theorem cwdSearch_eq_find? (env : Env) :
    cwdSearch env =
      ((match env.cwd with
        | some cwd => (cwd ++ ["params"]) :: chainUp cwd 5
        | none => []).find? (hasParams env)) := by
  cases hc : env.cwd with
  | none => simp [cwdSearch, hc]
  | some cwd =>
    rw [cwdSearch, hc]
    by_cases h : hasParams env (cwd ++ ["params"]) = true
    · simp [List.find?, h]
    · simp only [Bool.not_eq_true] at h
      simp [List.find?, h, walkUp_eq_find?, chainUp]

theorem exeSearch_eq_find? (env : Env) :
    exeSearch env =
      ((match env.exePath with
        | some exe =>
          match parentDir exe with
          | some exeDir => chainUp exeDir 5
          | none => []
        | none => []).find? (hasParams env)) := by
  cases he : env.exePath with
  | none => simp [exeSearch, he]
  | some exe =>
    rw [exeSearch, he]
    cases hp : parentDir exe with
    | none => simp [hp]
    | some exeDir => simp [hp, walkUp_eq_find?]

theorem homeSearch_eq_find? (env : Env) :
    homeSearch env =
      ((match env.home with
        | some home => [home ++ [".zcash-params"]]
        | none => []).find? (hasParams env)) := by
  cases hh : env.home with
  | none => simp [homeSearch, hh]
  | some home =>
    rw [homeSearch, hh]
    by_cases h : hasParams env (home ++ [".zcash-params"]) = true
    · simp [List.find?, h]
    · simp only [Bool.not_eq_true] at h
      simp [List.find?, h]

/-- The whole search is exactly "first complete candidate wins" over the
probe-ordered candidate list. -/
theorem find_params_dir_eq_find? (env : Env) :
    find_params_dir env = (candidates env).find? (hasParams env) := by
  rw [find_params_dir, candidates, find?_append, find?_append,
    ← cwdSearch_eq_find?, ← exeSearch_eq_find?, ← homeSearch_eq_find?]
  cases cwdSearch env with
  | some p => rfl
  | none =>
    cases exeSearch env with
    | some p => rfl
    | none => rfl

/-- Whatever the search returns is a complete candidate. -/
theorem find_params_dir_complete (env : Env) (d : Path)
    (h : find_params_dir env = some d) : hasParams env d = true := by
  rw [find_params_dir_eq_find?] at h
  exact List.find?_some h

/-- Whatever the search returns belongs to the probed candidate list. -/
theorem find_params_dir_mem (env : Env) (d : Path)
    (h : find_params_dir env = some d) : d ∈ candidates env := by
  rw [find_params_dir_eq_find?] at h
  exact List.mem_of_find?_eq_some h

/-! ## JSON values (serde_json) and amount parsing -/

/-- A `serde_json` number. `serde_json` stores an integer literal in `[0, 2^64)`
as an unsigned 64-bit value, an integer literal in `[-2^63, 0)` as a signed
64-bit value, and anything else as a float; `as_u64` succeeds only on the
first form, so the float payload is irrelevant here and is not carried. -/
inductive JsonNum where
  | uint (n : Nat)
  | int (i : Int)
  | float
  deriving DecidableEq

/-- How `serde_json` represents a JSON integer literal `i` (documented
`serde_json::Number` behaviour). -/
def jsonNumOfInt (i : Int) : JsonNum :=
  if 0 ≤ i ∧ i < 2 ^ 64 then .uint i.toNat
  else if -(2 ^ 63) ≤ i ∧ i < 0 then .int i
  else .float

/-- A `serde_json::Value`. -/
inductive JValue where
  | jnull
  | jbool (b : Bool)
  | jnum (n : JsonNum)
  | jstr (s : String)
  | jarr (elems : List JValue)
  | jobj (fields : List (String × JValue))

/-- Lookup in a JSON object's field map (first match, as in `serde_json::Map`,
whose maps cannot hold duplicate keys). -/
def lookupField : List (String × JValue) → String → Option JValue
  | [], _ => none
  | (k, v) :: rest, key => if k = key then some v else lookupField rest key

/-- `Value::get(key)`: a field of an object, `None` on any other value. -/
def JValue.get : JValue → String → Option JValue
  | .jobj fields, key => lookupField fields key
  | _, _ => none

/-- `Value::as_str()`. -/
def JValue.as_str : JValue → Option String
  | .jstr s => some s
  | _ => none

/-- `Value::as_u64()`: only an unsigned 64-bit number. -/
def JValue.as_u64 : JValue → Option Nat
  | .jnum (.uint n) => some n
  | _ => none

/-- The value of one ASCII decimal digit, as accepted by `u64::from_str`. -/
def digitVal (c : Char) : Option Nat :=
  if '0' ≤ c ∧ c ≤ '9' then some (c.toNat - '0'.toNat) else none

/-- Digit-by-digit accumulation of `u64::from_str`, with the checked-arithmetic
overflow rejection (any intermediate value reaching `2^64` fails). -/
def parseDigits : List Char → Nat → Option Nat
  | [], acc => some acc
  | c :: cs, acc =>
    match digitVal c with
    | some d => if acc * 10 + d < 2 ^ 64 then parseDigits cs (acc * 10 + d) else none
    | none => none

/-- `str::parse::<u64>()`: an optional leading `+` sign followed by at least
one ASCII digit, rejecting overflow past `2^64 - 1`. -/
def parseU64 (s : String) : Option Nat :=
  match s.data with
  | [] => none
  | c :: cs =>
    if c = '+' then
      match cs with
      | [] => none
      | _ => parseDigits cs 0
    else parseDigits (c :: cs) 0

/-- The amount-extraction closure shared verbatim by the spend branch
(lines 306-316) and the output branch (lines 358-368): a string is parsed as
`u64`, otherwise `as_u64` is tried, otherwise the value is rejected. -/
def amountFromValue (v : JValue) : Option Nat :=
  match v.as_str with
  | some s => parseU64 s
  | none => v.as_u64

/-- `params.get("amount").and_then(closure)` as used by both proof branches. -/
def extractAmount (params : JValue) : Option Nat :=
  (params.get "amount").bind amountFromValue

/-! ## Prover acquisition -/

/-- `Result<T, String>`. -/
inductive RRes (α : Type) where
  | ok (v : α)
  | err (e : String)
  deriving DecidableEq

/-- The opaque `LocalTxProver`, remembering only how it was constructed:
`LocalTxProver::new(spend_path, output_path)` with explicit paths, or the
library's own `LocalTxProver::with_default_location()`. -/
inductive Prover where
  | fromPaths (spend output : Path)
  | libDefault
  deriving DecidableEq

/-- An ASCII apostrophe, spliced into message literals. -/
def sq : String := ⟨[Char.ofNat 39]⟩

/-- The `"Current working directory"`/`"Checked"` report of `get_prover`'s
failure message (lines 178-182). -/
def cwdSection (env : Env) : String :=
  match env.cwd with
  | some cwd =>
    "Current working directory: " ++ env.reprPath cwd ++ "\n" ++
    "Checked: " ++ env.reprPath (cwd ++ ["params"]) ++ "\n"
  | none => ""

/-- The `"Executable path"` report of `get_prover`'s failure message
(lines 184-186). -/
def exeSection (env : Env) : String :=
  match env.exePath with
  | some exe => "Executable path: " ++ env.reprPath exe ++ "\n"
  | none => ""

/-- The per-file existence report of `get_prover`'s failure message
(lines 189-216), emitted only when `cwd/params` itself exists. -/
def filesSection (env : Env) : String :=
  match env.cwd with
  | some cwd =>
    if env.fs (cwd ++ ["params"]) then
      "\nFound " ++ sq ++ "params" ++ sq ++ " folder at: " ++
        env.reprPath (cwd ++ ["params"]) ++ "\n" ++
      "Checking files:\n" ++
      (if env.fs ((cwd ++ ["params"]) ++ [spendFile]) then
        "  ✅ sapling-spend.params exists (" ++
          Nat.repr (env.fileSizeMB ((cwd ++ ["params"]) ++ [spendFile])) ++ ") MB\n"
       else
        "  ❌ Missing: " ++ env.reprPath ((cwd ++ ["params"]) ++ [spendFile]) ++ "\n") ++
      (if env.fs ((cwd ++ ["params"]) ++ [outFile]) then
        "  ✅ sapling-output.params exists (" ++
          Nat.repr (env.fileSizeMB ((cwd ++ ["params"]) ++ [outFile])) ++ ") MB\n"
       else
        "  ❌ Missing: " ++ env.reprPath ((cwd ++ ["params"]) ++ [outFile]) ++ "\n")
    else ""
  | none => ""

/-- The fixed remediation tail of `get_prover`'s failure message
(lines 218-221). -/
def fixTail : String :=
  "\nTo fix this:\n" ++
  "1. Make sure parameters are in the " ++ sq ++ "params" ++ sq ++
    " folder at the project root\n" ++
  "2. Run: .\\scripts\\download-zcash-params.ps1\n" ++
  "3. Restart the proof service after downloading\n"

/-- The full diagnostic built when both resolution tiers fail (lines 174-223);
the source accumulates these pieces into `error_msg` in this order. -/
def initErrorMsg (env : Env) : String :=
  "Prover initialization failed. This usually means the Groth16 proving parameters are not downloaded.\n\n" ++
  cwdSection env ++ exeSection env ++ filesSection env ++ fixTail

/-- `get_prover` (lines 131-226): the explicit search, re-verification of the
two files, explicit construction; otherwise the library default; otherwise the
diagnostic error. -/
def get_prover (env : Env) : RRes Prover :=
  match find_params_dir env with
  | some params_dir =>
    if !env.fs (params_dir ++ [spendFile]) then
      .err ("Parameter file not found: " ++ env.reprPath (params_dir ++ [spendFile]))
    else if !env.fs (params_dir ++ [outFile]) then
      .err ("Parameter file not found: " ++ env.reprPath (params_dir ++ [outFile]))
    else .ok (.fromPaths (params_dir ++ [spendFile]) (params_dir ++ [outFile]))
  | none =>
    if env.defaultAvailable then .ok .libDefault
    else .err (initErrorMsg env)

/-! ## Proof request handlers -/

/-- The body of a `/proofs/generate` request. -/
structure ProofRequest where
  proof_type : String
  params : JValue

/-- The serialized `ProofResponse` body. -/
structure ProofResponse where
  proof : List Nat
  error : Option String
  deriving DecidableEq

/-- An HTTP reply from `/proofs/generate`: status code plus body. -/
structure ProofHttp where
  status : Nat
  body : ProofResponse
  deriving DecidableEq

/-- The structural-limitation message of `generate_spend_proof`
(lines 331-343), parameterized by `spending_key.len()` and `amount` as the
`format!` holes are. -/
def spendLimitMsg (keyLen amount : Nat) : String :=
  "Spend proof generation requires note commitment tree witness.\n\n✅ SIMPLEST SOLUTION: Use lightwalletd" ++
  sq ++
  "s transaction building API\n\nLightwalletd can build complete transactions with real Groth16 proofs via:\n- gRPC SendTransaction method\n- Handles witness, anchor, and proof generation automatically\n\nCurrent params: spendingKey (" ++
  Nat.repr keyLen ++ " chars), amount=" ++ Nat.repr amount ++
  "\n\nSee PROOF_GENERATION_SOLUTION.md for implementation guide."

/-- The structural-limitation message of `generate_output_proof`
(lines 379-391), echoing `to_address` itself and `amount`. -/
def outputLimitMsg (to_address : String) (amount : Nat) : String :=
  "Output proof generation requires payment address decoding.\n\n✅ SIMPLEST SOLUTION: Use lightwalletd" ++
  sq ++
  "s transaction building API\n\nLightwalletd can build complete transactions with real Groth16 proofs via:\n- gRPC SendTransaction method\n- Handles address decoding, note construction, and proof generation\n\nCurrent params: toAddress=" ++
  to_address ++ ", amount=" ++ Nat.repr amount ++
  "\n\nSee PROOF_GENERATION_SOLUTION.md for implementation guide."

/-- `generate_spend_proof` (lines 295-344): extract `spendingKey` as a string
and `amount` via the flexible closure, then always fail with the structural
limitation; `spending_key.len()` is the Rust byte length, `utf8ByteSize`
here. -/
def generate_spend_proof (_prover : Prover) (params : JValue) : RRes (List Nat) :=
  match (params.get "spendingKey").bind JValue.as_str with
  | none => .err "Missing spendingKey parameter"
  | some spending_key =>
    match extractAmount params with
    | none => .err "Missing or invalid amount parameter"
    | some amount => .err (spendLimitMsg spending_key.utf8ByteSize amount)

/-- `generate_output_proof` (lines 347-392): extract `toAddress` and `amount`,
then always fail with the structural limitation. -/
def generate_output_proof (_prover : Prover) (params : JValue) : RRes (List Nat) :=
  match (params.get "toAddress").bind JValue.as_str with
  | none => .err "Missing toAddress parameter"
  | some to_address =>
    match extractAmount params with
    | none => .err "Missing or invalid amount parameter"
    | some amount => .err (outputLimitMsg to_address amount)

/-- `generate_proof` (lines 228-291): acquire the prover first; on failure
answer 500 with the acquisition error; then dispatch on the `type`
discriminant, wrapping branch failures at 500 and unknown kinds at 400. -/
def generate_proof (env : Env) (req : ProofRequest) : ProofHttp :=
  match get_prover env with
  | .err e => ⟨500, [], some e⟩
  | .ok prover =>
    if req.proof_type = "spend" then
      match generate_spend_proof prover req.params with
      | .ok proof => ⟨200, proof, none⟩
      | .err e => ⟨500, [], some ("Spend proof generation failed: " ++ e)⟩
    else if req.proof_type = "output" then
      match generate_output_proof prover req.params with
      | .ok proof => ⟨200, proof, none⟩
      | .err e => ⟨500, [], some ("Output proof generation failed: " ++ e)⟩
    else ⟨400, [], some ("Invalid proof type: " ++ req.proof_type)⟩

/-! ## Transaction building handler -/

/-- The body of a `/proofs/build-transaction` request (memo as raw bytes). -/
structure BuildTransactionRequest where
  spending_key : String
  from_address : String
  to_address : String
  amount : String
  memo : List Nat
  lightwalletd_endpoint : Option String

/-- The serialized `BuildTransactionResponse` body. -/
structure BuildTransactionResponse where
  raw_transaction : List Nat
  txid : Option String
  error : Option String
  deriving DecidableEq

/-- An HTTP reply from `/proofs/build-transaction`. -/
structure BuildHttp where
  status : Nat
  body : BuildTransactionResponse
  deriving DecidableEq

/-- The char-prefix of a Rust string covering exactly `n` bytes, or `none`
when `n` is not a character boundary or exceeds the string: the cases in
which `&s[..n]` panics. -/
def takeBytes : List Char → Nat → Option (List Char)
  | _, 0 => some []
  | [], _ + 1 => none
  | c :: cs, n + 1 =>
    if c.utf8Size ≤ n + 1 then
      match takeBytes cs (n + 1 - c.utf8Size) with
      | some l => some (c :: l)
      | none => none
    else none

/-- The address-preview truncation of `build_transaction` (lines 400-411):
empty strings short-circuit, otherwise `&s[..min(20, s.len())]`, which is a
byte slice; `none` models the panic on a non-boundary index. -/
def previewOf (s : String) : Option String :=
  if s = "" then some ""
  else (takeBytes s.data (min 20 s.utf8ByteSize)).map List.asString

/-- The not-implemented message of `build_transaction` (lines 441-464). -/
def buildLimitMsg (req : BuildTransactionRequest) : String :=
  "Transaction building is being implemented.\n\nThis will use the same approach as Ywallet:\n1. Get compact blocks from lightwalletd\n2. Build note commitment tree from blocks\n3. Find notes for spending key\n4. Use librustzcash Builder API to build transaction\n5. Return raw transaction ready to broadcast\n\nCurrent request:\n- Spending key: " ++
  Nat.repr req.spending_key.utf8ByteSize ++ " chars\n- From address: " ++
  req.from_address ++ "\n- To address: " ++ req.to_address ++ "\n- Amount: " ++
  req.amount ++ " zatoshi\n- Memo: " ++ Nat.repr req.memo.length ++
  " bytes\n\nImplementation in progress..."

/-- `build_transaction` (lines 396-471): compute both previews (a panic, when
one occurs, aborts the handler: `none`), then acquire the prover (500 on
failure), then answer 501 with the not-implemented message. -/
def build_transaction (env : Env) (req : BuildTransactionRequest) : Option BuildHttp :=
  match previewOf req.from_address with
  | none => none
  | some _ =>
    match previewOf req.to_address with
    | none => none
    | some _ =>
      match get_prover env with
      | .err e => some ⟨500, [], none, some ("Prover initialization failed: " ++ e)⟩
      | .ok _ => some ⟨501, [], none, some (buildLimitMsg req)⟩

/-! ## Decimal rendering and parsing round-trip

`Nat.repr` is fuel-based (`Nat.toDigitsCore`); `digitsOf` is the same digit
list defined by direct recursion, which the parsing lemmas induct on. -/

/-- The decimal digit characters of `n`, most significant first. -/
def digitsOf (n : Nat) : List Char :=
  if _h : n < 10 then [Nat.digitChar n]
  else digitsOf (n / 10) ++ [Nat.digitChar (n % 10)]
decreasing_by exact Nat.div_lt_self (by omega) (by omega)

theorem digitsOf_small {n : Nat} (h : n < 10) : digitsOf n = [Nat.digitChar n] := by
  rw [digitsOf]; simp [h]

theorem digitsOf_large {n : Nat} (h : ¬ n < 10) :
    digitsOf n = digitsOf (n / 10) ++ [Nat.digitChar (n % 10)] := by
  rw [digitsOf]; simp [h]

/-- The fuel-based core renderer computes `digitsOf` whenever the fuel bounds
the number. -/
theorem toDigitsCore_eq_digitsOf (fuel : Nat) :
    ∀ (n : Nat) (ds : List Char), n < 10 ^ (fuel + 1) →
      Nat.toDigitsCore 10 (fuel + 1) n ds = digitsOf n ++ ds := by
  induction fuel with
  | zero =>
    intro n ds h
    rw [pow_one] at h
    have hd : n / 10 = 0 := Nat.div_eq_of_lt h
    rw [Nat.toDigitsCore]
    simp only [hd, if_pos rfl]
    rw [digitsOf_small h, Nat.mod_eq_of_lt h]
    rfl
  | succ fuel ih =>
    intro n ds h
    rw [Nat.toDigitsCore]
    by_cases hd : n / 10 = 0
    · have hn : n < 10 := by omega
      simp only [hd, if_pos rfl]
      rw [digitsOf_small hn, Nat.mod_eq_of_lt hn]
      rfl
    · simp only [hd, if_neg hd]
      have hlt : n / 10 < 10 ^ (fuel + 1) := by
        apply Nat.div_lt_of_lt_mul
        calc n < 10 ^ (fuel + 1 + 1) := h
        _ = 10 * 10 ^ (fuel + 1) := by ring
      have hn : ¬ n < 10 := by
        intro hc
        exact hd (Nat.div_eq_of_lt hc)
      rw [ih (n / 10) (Nat.digitChar (n % 10) :: ds) hlt, digitsOf_large hn,
        List.append_assoc, List.singleton_append]
      simp

/-- The characters `Nat.repr` produces are exactly `digitsOf`. -/
theorem repr_data_eq_digitsOf (n : Nat) : (Nat.repr n).data = digitsOf n := by
  show (List.asString (Nat.toDigitsCore 10 (n + 1) n [])).data = digitsOf n
  have hn : n < 10 ^ (n + 1) := by
    calc n < 10 ^ n := Nat.lt_pow_self (by omega) n
    _ ≤ 10 ^ (n + 1) := Nat.pow_le_pow_right (by omega) (Nat.le_succ n)
  rw [show n + 1 = n + (0 + 1) by omega, toDigitsCore_eq_digitsOf n n [] (by omega)]
  simp [List.asString]

theorem digitVal_digitChar {d : Nat} (h : d < 10) :
    digitVal (Nat.digitChar d) = some d := by
  interval_cases d <;> decide

theorem digitChar_ne_plus {d : Nat} (h : d < 10) : Nat.digitChar d ≠ '+' := by
  interval_cases d <;> decide

/-- Parsing distributes over digit-list append. -/
theorem parseDigits_append (l₁ l₂ : List Char) :
    ∀ acc : Nat, parseDigits (l₁ ++ l₂) acc =
      match parseDigits l₁ acc with
      | some v => parseDigits l₂ v
      | none => none := by
  induction l₁ with
  | nil => intro acc; rfl
  | cons c cs ih =>
    intro acc
    rw [List.cons_append, parseDigits, parseDigits]
    cases digitVal c with
    | none => rfl
    | some d =>
      by_cases hlt : acc * 10 + d < 2 ^ 64
      · simp only [if_pos hlt]
        exact ih (acc * 10 + d)
      · simp only [if_neg hlt]

/-- Parsing the digit string of `m` from a zero accumulator yields `m` exactly
when `m` fits in 64 bits; the overflow check fires otherwise. -/
theorem parseDigits_digitsOf (m : Nat) :
    parseDigits (digitsOf m) 0 = if m < 2 ^ 64 then some m else none := by
  induction m using Nat.strong_induction_on with
  | _ m ih =>
    by_cases h : m < 10
    · rw [digitsOf_small h, parseDigits, digitVal_digitChar h]
      have hlt : (0 : Nat) * 10 + m < 2 ^ 64 := by omega
      have hm : m < 2 ^ 64 := by omega
      rw [if_pos hm]
      show (if 0 * 10 + m < 2 ^ 64 then parseDigits [] (0 * 10 + m) else none) = some m
      rw [if_pos hlt]
      show some (0 * 10 + m) = some m
      congr 1
      omega
    · rw [digitsOf_large h, parseDigits_append,
        ih (m / 10) (Nat.div_lt_self (by omega) (by omega))]
      by_cases hq : m / 10 < 2 ^ 64
      · simp only [if_pos hq]
        rw [parseDigits, digitVal_digitChar (Nat.mod_lt m (by omega))]
        show (if m / 10 * 10 + m % 10 < 2 ^ 64 then parseDigits [] (m / 10 * 10 + m % 10)
              else none) = if m < 2 ^ 64 then some m else none
        by_cases hm : m < 2 ^ 64
        · have hx : m / 10 * 10 + m % 10 < 2 ^ 64 := by omega
          rw [if_pos hx, if_pos hm]
          show some (m / 10 * 10 + m % 10) = some m
          congr 1
          omega
        · have hx : ¬ m / 10 * 10 + m % 10 < 2 ^ 64 := by omega
          rw [if_neg hx, if_neg hm]
      · have hm : ¬ m < 2 ^ 64 := by
          intro hc
          exact hq (lt_of_le_of_lt (Nat.div_le_self m 10) hc)
        simp only [if_neg hq, if_neg hm]

/-- The first character of `digitsOf` is a digit character. -/
theorem digitsOf_head (m : Nat) :
    ∃ (d : Nat) (cs : List Char), digitsOf m = Nat.digitChar d :: cs ∧ d < 10 := by
  induction m using Nat.strong_induction_on with
  | _ m ih =>
    by_cases h : m < 10
    · exact ⟨m, [], digitsOf_small h, h⟩
    · obtain ⟨d, cs, hcons, hd⟩ := ih (m / 10) (Nat.div_lt_self (by omega) (by omega))
      exact ⟨d, cs ++ [Nat.digitChar (m % 10)],
        by rw [digitsOf_large h, hcons, List.cons_append], hd⟩

/-- `u64::from_str` inverts decimal rendering for every value that fits, and
rejects with the overflow check every rendered value that does not. -/
theorem parseU64_repr (m : Nat) :
    parseU64 (Nat.repr m) = if m < 2 ^ 64 then some m else none := by
  obtain ⟨d, cs, hcons, hd⟩ := digitsOf_head m
  rw [parseU64, repr_data_eq_digitsOf, hcons]
  simp only [if_neg (digitChar_ne_plus hd)]
  rw [← hcons, parseDigits_digitsOf]

/-! ## Substring containment -/

/-- `t` occurs as a contiguous substring of `s`. -/
def containsStr (s t : String) : Prop := ∃ p q, s = p ++ t ++ q

theorem containsStr_of_left {s t : String} (h : containsStr s t) (r : String) :
    containsStr (s ++ r) t := by
  obtain ⟨p, q, rfl⟩ := h
  exact ⟨p, q ++ r, by simp only [String.append_assoc]⟩

theorem containsStr_of_right (l : String) {s t : String} (h : containsStr s t) :
    containsStr (l ++ s) t := by
  obtain ⟨p, q, rfl⟩ := h
  exact ⟨l ++ p, q, by simp only [String.append_assoc]⟩

/-! ## Concrete environments and requests used to evaluate the theorems -/

/-- A complete parameter set under `<cwd>/params`, with the cwd at the root;
nothing else on the filesystem, no library default. -/
def envParams : Env where
  fs := fun p => decide (p = ["params", spendFile]) || decide (p = ["params", outFile])
  cwd := some []
  exePath := none
  home := none
  defaultAvailable := false
  reprPath := fun _ => ""
  fileSizeMB := fun _ => 0

/-- An empty filesystem and no library default: every resolution tier fails. -/
def envEmpty : Env where
  fs := fun _ => false
  cwd := some []
  exePath := none
  home := none
  defaultAvailable := false
  reprPath := fun _ => ""
  fileSizeMB := fun _ => 0

/-- A complete set only in the home fallback `~/.zcash-params`; the cwd
candidates are all incomplete. -/
def envOrder : Env where
  fs := fun p =>
    decide (p = ["h", ".zcash-params", spendFile]) ||
    decide (p = ["h", ".zcash-params", outFile])
  cwd := some ["w"]
  exePath := none
  home := some ["h"]
  defaultAvailable := false
  reprPath := fun _ => ""
  fileSizeMB := fun _ => 0

/-- A partial set (spend file only) under `<cwd>/params`, and a complete set
in the home fallback. -/
def envPartial : Env where
  fs := fun p =>
    decide (p = ["w", "params", spendFile]) ||
    decide (p = ["h", ".zcash-params", spendFile]) ||
    decide (p = ["h", ".zcash-params", outFile])
  cwd := some ["w"]
  exePath := none
  home := some ["h"]
  defaultAvailable := false
  reprPath := fun _ => ""
  fileSizeMB := fun _ => 0

/-- A cwd five levels deep, with the only complete parameter set at
`<fifth ancestor of cwd>/params`, i.e. at the root's `params` directory. -/
def envDeep : Env where
  fs := fun p => decide (p = ["params", spendFile]) || decide (p = ["params", outFile])
  cwd := some ["a", "b", "c", "d", "e"]
  exePath := none
  home := none
  defaultAvailable := false
  reprPath := fun _ => ""
  fileSizeMB := fun _ => 0

/-! ## Claim C3 -/

/-- `find?` returns the element at the first index where the predicate
holds. -/
theorem find?_eq_get_of_first {α : Type} (p : α → Bool) :
    ∀ (l : List α) (i : Nat) (h : i < l.length),
      p (l.get ⟨i, h⟩) = true →
      (∀ j (hj : j < l.length), j < i → p (l.get ⟨j, hj⟩) = false) →
      l.find? p = some (l.get ⟨i, h⟩)
  | [], i, h, _, _ => absurd h (by simp)
  | a :: l, 0, _, hp, _ => by simp_all [List.find?]
  | a :: l, i + 1, h, hp, hprev => by
    have ha : p a = false := hprev 0 (by simp) (by omega)
    rw [List.find?, ha]
    show l.find? p = some (l.get ⟨i, by simpa using h⟩)
    exact find?_eq_get_of_first p l i (by simpa using h) hp
      (fun j hj hlt => hprev (j + 1) (by simpa using hj) (by omega))

/-- Claim C3, amended (the source walks at most 4 ancestor levels, not 5, and
re-probes the cwd candidate at the start of the ancestor loop): the locator
probes exactly the candidate directories in `candidates` in their listed
order — `<cwd>/params` directly, the ancestor walk from the cwd (which probes
`<cwd>/params` again and then at most four proper ancestors), the same walk
from the executable's directory, then the home default — and whenever the
`i`-th candidate is complete and every earlier candidate is not, `locate()`
returns exactly that candidate. -/
theorem claim3_order (env : Env) (i : Nat) (h : i < (candidates env).length)
    (hc : hasParams env ((candidates env).get ⟨i, h⟩) = true)
    (hprev : ∀ j (hj : j < (candidates env).length), j < i →
      hasParams env ((candidates env).get ⟨j, hj⟩) = false) :
    find_params_dir env = some ((candidates env).get ⟨i, h⟩) := by
  rw [find_params_dir_eq_find?]
  exact find?_eq_get_of_first (hasParams env) (candidates env) i h hc hprev

/-- Witness for C3: in `envOrder` the home candidate (index 3) is the first
complete one, and the locator returns it. -/
theorem claim3_order_witness :
    find_params_dir envOrder = some ["h", ".zcash-params"] :=
  claim3_order envOrder 3 (by decide) (by decide) (by decide)

/-- Counterexample for C3 as frozen: the claim's 5-level ancestor walk would
reach the fifth ancestor of the cwd. In `envDeep` the cwd is
`/a/b/c/d/e` and a complete set sits at `/params`, the params directory of
the fifth ancestor (the root); no earlier-ordered candidate is complete, yet
the code never probes it (its loop re-checks the cwd and then only four
proper ancestors) and returns nothing. -/
theorem claim3_counterexample :
    hasParams envDeep ["params"] = true ∧
    ["params"] ∉ candidates envDeep ∧
    find_params_dir envDeep = none := by
  decide

/-! ## Claim C5 -/

/-- Removing elements the predicate rejects does not change `find?`. -/
theorem find?_filter_ne {α : Type} [DecidableEq α] (p : α → Bool) (d : α)
    (hd : p d = false) :
    ∀ l : List α, l.find? p = (l.filter (fun c => decide (c ≠ d))).find? p := by
  intro l
  induction l with
  | nil => rfl
  | cons a l ih =>
    by_cases ha : a = d
    · subst ha
      simp [List.filter, List.find?, hd, ih]
    · by_cases hpa : p a = true
      · simp [List.filter, List.find?, ha, hpa]
      · simp only [Bool.not_eq_true] at hpa
        simp [List.filter, List.find?, ha, hpa, ih]

/-- Claim C5, confirmed: a probed candidate holding exactly one of the two
required files is never returned — the search result is unchanged if all
copies of that candidate are removed from the candidate list (the search
continues through the remaining lower-priority candidates) — and a prover is
only ever constructed from explicit paths both of which exist. -/
theorem claim5_no_partial (env : Env) (d : Path)
    (_hmem : d ∈ candidates env)
    (hpart : env.fs (d ++ [spendFile]) ≠ env.fs (d ++ [outFile])) :
    find_params_dir env ≠ some d ∧
    find_params_dir env =
      ((candidates env).filter (fun c => decide (c ≠ d))).find? (hasParams env) ∧
    ∀ s o, get_prover env = .ok (.fromPaths s o) → env.fs s = true ∧ env.fs o = true := by
  have hpf : hasParams env d = false := by
    rw [hasParams]
    cases h1 : env.fs (d ++ [spendFile]) <;> cases h2 : env.fs (d ++ [outFile]) <;>
      simp_all
  refine ⟨?_, ?_, ?_⟩
  · intro hfind
    rw [find_params_dir_complete env d hfind] at hpf
    cases hpf
  · rw [find_params_dir_eq_find?]
    exact find?_filter_ne (hasParams env) d hpf (candidates env)
  · intro s o hok
    rw [get_prover] at hok
    cases hfind : find_params_dir env with
    | none =>
      rw [hfind] at hok
      by_cases hdef : env.defaultAvailable = true <;> simp [hdef] at hok
    | some pd =>
      have hcomp := find_params_dir_complete env pd hfind
      rw [hasParams, Bool.and_eq_true] at hcomp
      rw [hfind] at hok
      simp [hcomp.1, hcomp.2] at hok
      obtain ⟨hs, ho⟩ := hok
      subst hs
      subst ho
      exact ⟨hcomp.1, hcomp.2⟩

/-- Witness for C5: in `envPartial` the cwd candidate `/w/params` has only the
spend file; it is skipped and the search continues to the complete home
candidate. -/
theorem claim5_witness :
    find_params_dir envPartial ≠ some ["w", "params"] ∧
    find_params_dir envPartial =
      ((candidates envPartial).filter
        (fun c => decide (c ≠ ["w", "params"]))).find? (hasParams envPartial) ∧
    ∀ s o, get_prover envPartial = .ok (.fromPaths s o) →
      envPartial.fs s = true ∧ envPartial.fs o = true :=
  claim5_no_partial envPartial ["w", "params"] (by decide) (by decide)

/-! ## Claim C8 -/

/-- The remediation tail names the download step. -/
theorem fixTail_contains_download : containsStr fixTail "download-zcash-params" :=
  ⟨"\nTo fix this:\n" ++ "1. Make sure parameters are in the " ++ sq ++ "params" ++ sq ++
    " folder at the project root\n" ++ "2. Run: .\\scripts\\",
   ".ps1\n" ++ "3. Restart the proof service after downloading\n",
   by decide⟩

/-- Claim C8, confirmed: acquisition uses the explicit search first — whenever
it finds a directory, the prover is built from that directory's two explicit
paths, regardless of whether the library default would also succeed — falls
back to the library default only when the search finds nothing, and when both
tiers fail returns (never panics) the diagnostic error, which reports the
probed `<cwd>/params` location, names whichever of the two required files is
missing at that local candidate (when the candidate directory exists), and
carries the download remediation hint. -/
theorem claim8_two_tier (env : Env) :
    (∀ d, find_params_dir env = some d →
      get_prover env = .ok (.fromPaths (d ++ [spendFile]) (d ++ [outFile]))) ∧
    (find_params_dir env = none → env.defaultAvailable = true →
      get_prover env = .ok .libDefault) ∧
    (find_params_dir env = none → env.defaultAvailable = false →
      get_prover env = .err (initErrorMsg env) ∧
      containsStr (initErrorMsg env) "download-zcash-params" ∧
      (∀ cwd, env.cwd = some cwd →
        containsStr (initErrorMsg env) ("Checked: " ++ env.reprPath (cwd ++ ["params"]))) ∧
      (∀ cwd, env.cwd = some cwd → env.fs (cwd ++ ["params"]) = true →
        env.fs ((cwd ++ ["params"]) ++ [spendFile]) = false →
        containsStr (initErrorMsg env)
          ("  ❌ Missing: " ++ env.reprPath ((cwd ++ ["params"]) ++ [spendFile]))) ∧
      (∀ cwd, env.cwd = some cwd → env.fs (cwd ++ ["params"]) = true →
        env.fs ((cwd ++ ["params"]) ++ [outFile]) = false →
        containsStr (initErrorMsg env)
          ("  ❌ Missing: " ++ env.reprPath ((cwd ++ ["params"]) ++ [outFile])))) := by
  refine ⟨?_, ?_, ?_⟩
  · intro d hd
    have hcomp := find_params_dir_complete env d hd
    rw [hasParams, Bool.and_eq_true] at hcomp
    rw [get_prover, hd]
    simp [hcomp.1, hcomp.2]
  · intro h1 h2
    rw [get_prover, h1]
    simp [h2]
  · intro h1 h2
    refine ⟨by rw [get_prover, h1]; simp [h2], ?_, ?_, ?_, ?_⟩
    · rw [initErrorMsg]
      exact containsStr_of_right _ fixTail_contains_download
    · intro cwd hc
      have hcs : containsStr (cwdSection env)
          ("Checked: " ++ env.reprPath (cwd ++ ["params"])) := by
        rw [cwdSection, hc]
        exact ⟨"Current working directory: " ++ env.reprPath cwd ++ "\n", "\n",
          by simp only [String.append_assoc]⟩
      rw [initErrorMsg]
      exact containsStr_of_left
        (containsStr_of_left (containsStr_of_left (containsStr_of_right _ hcs) _) _) _
    · intro cwd hc hfold hmiss
      have hm : ¬ (env.fs ((cwd ++ ["params"]) ++ [spendFile]) = true) := by
        rw [hmiss]; simp
      have hfs : containsStr (filesSection env)
          ("  ❌ Missing: " ++ env.reprPath ((cwd ++ ["params"]) ++ [spendFile])) := by
        simp only [filesSection, hc]
        rw [if_pos hfold, if_neg hm]
        exact containsStr_of_left
          ⟨"\nFound " ++ sq ++ "params" ++ sq ++ " folder at: " ++
              env.reprPath (cwd ++ ["params"]) ++ "\n" ++ "Checking files:\n", "\n",
            by simp only [String.append_assoc]⟩ _
      rw [initErrorMsg]
      exact containsStr_of_left (containsStr_of_right _ hfs) _
    · intro cwd hc hfold hmiss
      have hm : ¬ (env.fs ((cwd ++ ["params"]) ++ [outFile]) = true) := by
        rw [hmiss]; simp
      have hfs : containsStr (filesSection env)
          ("  ❌ Missing: " ++ env.reprPath ((cwd ++ ["params"]) ++ [outFile])) := by
        simp only [filesSection, hc]
        rw [if_pos hfold, if_neg hm]
        exact containsStr_of_right _ ⟨"", "\n", rfl⟩
      rw [initErrorMsg]
      exact containsStr_of_left (containsStr_of_right _ hfs) _

/-- Witness for C8: with a complete set in `<cwd>/params`, the explicit tier
constructs the prover from explicit paths even though the library default is
unavailable; with nothing anywhere, the two-tier failure yields the
diagnostic with the download hint. -/
theorem claim8_witness :
    get_prover envParams =
      .ok (.fromPaths ["params", spendFile] ["params", outFile]) ∧
    get_prover envEmpty = .err (initErrorMsg envEmpty) ∧
    containsStr (initErrorMsg envEmpty) "download-zcash-params" :=
  ⟨(claim8_two_tier envParams).1 ["params"] (by decide),
   ((claim8_two_tier envEmpty).2.2 (by decide) rfl).1,
   ((claim8_two_tier envEmpty).2.2 (by decide) rfl).2.1⟩

/-- The prover `get_prover` constructs in `envParams`. -/
def proverParams : Prover := .fromPaths ["params", spendFile] ["params", outFile]

/-! ## Claim C1 -/

/-- Claim C1, amended: an unknown proof-kind discriminant yields HTTP 400 with
an error naming the invalid type only once prover acquisition has succeeded;
the handler acquires the prover (running the parameter search) before kind
validation, so when acquisition fails the same malformed request is answered
500 with the acquisition error instead. -/
theorem claim1_amended (env : Env) (req : ProofRequest)
    (h1 : req.proof_type ≠ "spend") (h2 : req.proof_type ≠ "output") :
    (∀ pr, get_prover env = .ok pr →
      generate_proof env req =
        ⟨400, [], some ("Invalid proof type: " ++ req.proof_type)⟩) ∧
    (∀ e, get_prover env = .err e → generate_proof env req = ⟨500, [], some e⟩) := by
  constructor
  · intro pr hok
    simp [generate_proof, hok, h1, h2]
  · intro e herr
    simp [generate_proof, herr]

/-- Witness for C1: with parameters present, a `bogus` kind is answered 400
and the error names the kind. -/
theorem claim1_witness :
    generate_proof envParams ⟨"bogus", .jobj []⟩ =
      ⟨400, [], some "Invalid proof type: bogus"⟩ :=
  (claim1_amended envParams ⟨"bogus", .jobj []⟩ (by decide) (by decide)).1
    proverParams (by decide)

/-- Counterexample for C1 as frozen: with no parameters anywhere the prover is
acquired (and fails) before kind validation, so `{type:"bogus"}` is answered
500 — not 400 — and no type-naming error is produced. -/
theorem claim1_counterexample :
    (generate_proof envEmpty ⟨"bogus", .jobj []⟩).status = 500 ∧
    (generate_proof envEmpty ⟨"bogus", .jobj []⟩).status ≠ 400 := by
  decide

/-! ## Claim C2 -/

/-- Claim C2, amended: a well-kinded request with a missing or unparseable
required field is rejected with the field-specific message the claim
describes, but at HTTP 500 (the branch errors are wrapped by the
server-fault arm), not HTTP 400. -/
theorem claim2_amended (env : Env) (pr : Prover) (bag : JValue)
    (hok : get_prover env = .ok pr) :
    ((bag.get "spendingKey").bind JValue.as_str = none →
      generate_proof env ⟨"spend", bag⟩ =
        ⟨500, [], some "Spend proof generation failed: Missing spendingKey parameter"⟩) ∧
    (∀ k, (bag.get "spendingKey").bind JValue.as_str = some k →
      extractAmount bag = none →
      generate_proof env ⟨"spend", bag⟩ =
        ⟨500, [],
          some "Spend proof generation failed: Missing or invalid amount parameter"⟩) ∧
    ((bag.get "toAddress").bind JValue.as_str = none →
      generate_proof env ⟨"output", bag⟩ =
        ⟨500, [], some "Output proof generation failed: Missing toAddress parameter"⟩) ∧
    (∀ t, (bag.get "toAddress").bind JValue.as_str = some t →
      extractAmount bag = none →
      generate_proof env ⟨"output", bag⟩ =
        ⟨500, [],
          some "Output proof generation failed: Missing or invalid amount parameter"⟩) := by
  refine ⟨?_, ?_, ?_, ?_⟩
  · intro hnone
    simp [generate_proof, hok, generate_spend_proof, hnone]
  · intro k hk hamt
    simp [generate_proof, hok, generate_spend_proof, hk, hamt]
  · intro hnone
    simp [generate_proof, hok, generate_output_proof, hnone]
  · intro t ht hamt
    simp [generate_proof, hok, generate_output_proof, ht, hamt]

/-- A well-kinded bag whose `amount` is unparseable. -/
def bagBadAmount : JValue :=
  .jobj [("spendingKey", .jstr "k"), ("amount", .jstr "abc")]

/-- Witness for C2: the three missing/unparseable-field rejections, each with
its field-specific message. -/
theorem claim2_witness :
    generate_proof envParams ⟨"spend", JValue.jobj []⟩ =
      ⟨500, [], some "Spend proof generation failed: Missing spendingKey parameter"⟩ ∧
    generate_proof envParams ⟨"spend", bagBadAmount⟩ =
      ⟨500, [],
        some "Spend proof generation failed: Missing or invalid amount parameter"⟩ ∧
    generate_proof envParams ⟨"output", JValue.jobj []⟩ =
      ⟨500, [], some "Output proof generation failed: Missing toAddress parameter"⟩ :=
  ⟨(claim2_amended envParams proverParams (JValue.jobj []) (by decide)).1 rfl,
   (claim2_amended envParams proverParams bagBadAmount (by decide)).2.1 "k" rfl
     (by decide),
   (claim2_amended envParams proverParams (JValue.jobj []) (by decide)).2.2.1 rfl⟩

/-- Counterexample for C2 as frozen: a spend request missing `spendingKey`
(with parameters present) is answered 500, not the claimed 400. -/
theorem claim2_counterexample :
    (generate_proof envParams ⟨"spend", JValue.jobj []⟩).status = 500 ∧
    (generate_proof envParams ⟨"spend", JValue.jobj []⟩).status ≠ 400 := by
  decide

/-! ## Claim C4 -/

/-- Claim C4, confirmed: the amount closure (shared verbatim by the spend and
output branches) maps the decimal string of `n` and the JSON numeric literal
`n` to the same value for every `n` in `[0, 2^64)`, and rejects the strings
`"-1"` and `"abc"`, every negative numeric literal, and every input —
string or numeric — exceeding `2^64 - 1`. -/
theorem claim4_amount :
    (∀ n : Nat, n < 2 ^ 64 →
      amountFromValue (.jstr (Nat.repr n)) = some n ∧
      amountFromValue (.jnum (jsonNumOfInt (n : Int))) = some n) ∧
    amountFromValue (.jstr "-1") = none ∧
    amountFromValue (.jstr "abc") = none ∧
    (∀ i : Int, i < 0 → amountFromValue (.jnum (jsonNumOfInt i)) = none) ∧
    (∀ m : Nat, 2 ^ 64 ≤ m →
      amountFromValue (.jstr (Nat.repr m)) = none ∧
      amountFromValue (.jnum (jsonNumOfInt (m : Int))) = none) := by
  refine ⟨?_, by decide, by decide, ?_, ?_⟩
  · intro n hn
    constructor
    · show parseU64 (Nat.repr n) = some n
      rw [parseU64_repr, if_pos hn]
    · have h0 : (0 : Int) ≤ (n : Int) ∧ (n : Int) < 2 ^ 64 :=
        ⟨Int.natCast_nonneg n, by exact_mod_cast hn⟩
      show JValue.as_u64 (.jnum (jsonNumOfInt (n : Int))) = some n
      rw [jsonNumOfInt, if_pos h0]
      simp [JValue.as_u64]
  · intro i hi
    have h1 : ¬((0 : Int) ≤ i ∧ i < 2 ^ 64) := by omega
    show JValue.as_u64 (.jnum (jsonNumOfInt i)) = none
    rw [jsonNumOfInt, if_neg h1]
    by_cases h2 : -(2 ^ 63 : Int) ≤ i ∧ i < 0
    · rw [if_pos h2]; rfl
    · rw [if_neg h2]; rfl
  · intro m hm
    constructor
    · show parseU64 (Nat.repr m) = none
      rw [parseU64_repr, if_neg (by omega)]
    · have hcast : (2 ^ 64 : Int) ≤ (m : Int) := by exact_mod_cast hm
      have hnn : (0 : Int) ≤ (m : Int) := Int.natCast_nonneg m
      have h1 : ¬((0 : Int) ≤ (m : Int) ∧ (m : Int) < 2 ^ 64) := by omega
      have h2 : ¬(-(2 ^ 63 : Int) ≤ (m : Int) ∧ (m : Int) < 0) := by omega
      show JValue.as_u64 (.jnum (jsonNumOfInt (m : Int))) = none
      rw [jsonNumOfInt, if_neg h1, if_neg h2]
      rfl

/-- Witness for C4: string and numeric `1000` agree; `-1` as a number and the
out-of-range decimal string `2^64` are both rejected. -/
theorem claim4_witness :
    amountFromValue (.jstr "1000") = some 1000 ∧
    amountFromValue (.jnum (jsonNumOfInt 1000)) = some 1000 ∧
    amountFromValue (.jnum (jsonNumOfInt (-1))) = none ∧
    amountFromValue (.jstr "18446744073709551616") = none :=
  ⟨(claim4_amount.1 1000 (by norm_num)).1,
   (claim4_amount.1 1000 (by norm_num)).2,
   claim4_amount.2.2.2.1 (-1) (by norm_num),
   (claim4_amount.2.2.2.2 (2 ^ 64) (le_refl _)).1⟩

/-! ## Claim C6 -/

/-- The spend limitation message names the missing witness dependency and the
collaborator able to supply it. -/
theorem spendLimitMsg_contains (kb a : Nat) :
    containsStr (spendLimitMsg kb a) "note commitment tree witness" ∧
    containsStr (spendLimitMsg kb a) "lightwalletd" := by
  constructor
  · rw [spendLimitMsg]
    exact containsStr_of_left (containsStr_of_left (containsStr_of_left
      (containsStr_of_left (containsStr_of_left (containsStr_of_left
        ⟨"Spend proof generation requires ",
         ".\n\n✅ SIMPLEST SOLUTION: Use lightwalletd", by decide⟩ _) _) _) _) _) _
  · rw [spendLimitMsg]
    exact containsStr_of_left (containsStr_of_left (containsStr_of_left
      (containsStr_of_left (containsStr_of_left (containsStr_of_left
        ⟨"Spend proof generation requires note commitment tree witness.\n\n✅ SIMPLEST SOLUTION: Use ",
         "", by decide⟩ _) _) _) _) _) _

/-- Claim C6, confirmed: a spend request with a present `spendingKey` and a
parseable `amount`, handled once a prover is acquired, is answered HTTP 500
with an empty proof and an error naming the missing note commitment tree
witness and pointing to lightwalletd. -/
theorem claim6_structural (env : Env) (pr : Prover) (bag : JValue) (k : String)
    (a : Nat)
    (hok : get_prover env = .ok pr)
    (hk : (bag.get "spendingKey").bind JValue.as_str = some k)
    (ha : extractAmount bag = some a) :
    generate_proof env ⟨"spend", bag⟩ =
      ⟨500, [],
        some ("Spend proof generation failed: " ++ spendLimitMsg k.utf8ByteSize a)⟩ ∧
    containsStr ("Spend proof generation failed: " ++ spendLimitMsg k.utf8ByteSize a)
      "note commitment tree witness" ∧
    containsStr ("Spend proof generation failed: " ++ spendLimitMsg k.utf8ByteSize a)
      "lightwalletd" := by
  refine ⟨?_, ?_, ?_⟩
  · simp [generate_proof, hok, generate_spend_proof, hk, ha]
  · exact containsStr_of_right _ (spendLimitMsg_contains _ _).1
  · exact containsStr_of_right _ (spendLimitMsg_contains _ _).2

/-- A fully-populated spend bag. -/
def bagSpend : JValue :=
  .jobj [("spendingKey", .jstr "secret-extended-key-main1abc"),
         ("amount", .jstr "100000")]

/-- Witness for C6, at the spec's own example request. -/
theorem claim6_witness :
    generate_proof envParams ⟨"spend", bagSpend⟩ =
      ⟨500, [], some ("Spend proof generation failed: " ++ spendLimitMsg 28 100000)⟩ ∧
    containsStr ("Spend proof generation failed: " ++ spendLimitMsg 28 100000)
      "note commitment tree witness" ∧
    containsStr ("Spend proof generation failed: " ++ spendLimitMsg 28 100000)
      "lightwalletd" :=
  claim6_structural envParams proverParams bagSpend "secret-extended-key-main1abc"
    100000 (by decide) rfl (by decide)

/-! ## Claim C7 -/

/-- Claim C7 fails on the code: the preview truncation clamps the byte index
to `min(20, len)` but byte-slices a UTF-8 string, so a `from_address` of 19
ASCII characters followed by a 2-byte character (21 bytes) puts the slice
index 20 inside the final character, and `&req.from_address[..20]` panics,
aborting the handler before any response is produced. -/
theorem claim7_panic :
    ("aaaaaaaaaaaaaaaaaaaé" : String).utf8ByteSize = 21 ∧
    min 20 ("aaaaaaaaaaaaaaaaaaaé" : String).utf8ByteSize = 20 ∧
    previewOf "aaaaaaaaaaaaaaaaaaaé" = none ∧
    build_transaction envParams
      ⟨"key", "aaaaaaaaaaaaaaaaaaaé", "addr", "100", [], none⟩ = none := by
  decide

/-! ## Claim C9 -/

/-- Claim C9, confirmed: whenever a `/proofs/generate` response carries an
error, its proof bytes are empty; whenever a `/proofs/build-transaction`
response carries an error, its raw transaction is empty and its txid absent. -/
theorem claim9_envelope (env : Env) :
    (∀ (req : ProofRequest) (e : String),
      (generate_proof env req).body.error = some e →
      (generate_proof env req).body.proof = []) ∧
    (∀ (req : BuildTransactionRequest) (resp : BuildHttp) (e : String),
      build_transaction env req = some resp →
      resp.body.error = some e →
      resp.body.raw_transaction = [] ∧ resp.body.txid = none) := by
  constructor
  · intro req e h
    cases hgp : get_prover env with
    | err s =>
      have heq : generate_proof env req = ⟨500, [], some s⟩ := by
        simp [generate_proof, hgp]
      rw [heq]
    | ok pr =>
      by_cases h1 : req.proof_type = "spend"
      · cases hs : generate_spend_proof pr req.params with
        | ok pf =>
          have heq : generate_proof env req = ⟨200, pf, none⟩ := by
            simp [generate_proof, hgp, h1, hs]
          rw [heq] at h
          simp at h
        | err s =>
          have heq : generate_proof env req =
              ⟨500, [], some ("Spend proof generation failed: " ++ s)⟩ := by
            simp [generate_proof, hgp, h1, hs]
          rw [heq]
      · by_cases h2 : req.proof_type = "output"
        · cases ho : generate_output_proof pr req.params with
          | ok pf =>
            have heq : generate_proof env req = ⟨200, pf, none⟩ := by
              simp [generate_proof, hgp, h1, h2, ho]
            rw [heq] at h
            simp at h
          | err s =>
            have heq : generate_proof env req =
                ⟨500, [], some ("Output proof generation failed: " ++ s)⟩ := by
              simp [generate_proof, hgp, h1, h2, ho]
            rw [heq]
        · have heq : generate_proof env req =
              ⟨400, [], some ("Invalid proof type: " ++ req.proof_type)⟩ := by
            simp [generate_proof, hgp, h1, h2]
          rw [heq]
  · intro req resp e hb herr
    rw [build_transaction] at hb
    cases hf : previewOf req.from_address with
    | none => rw [hf] at hb; simp at hb
    | some x =>
      rw [hf] at hb
      cases ht : previewOf req.to_address with
      | none => rw [ht] at hb; simp at hb
      | some y =>
        rw [ht] at hb
        cases hgp : get_prover env with
        | err s =>
          rw [hgp] at hb
          simp only [Option.some.injEq] at hb
          rw [← hb]
          exact ⟨rfl, rfl⟩
        | ok pr =>
          rw [hgp] at hb
          simp only [Option.some.injEq] at hb
          rw [← hb]
          exact ⟨rfl, rfl⟩

/-- Witness for C9: the 400 reply to a bogus kind has an empty proof, and the
501 reply to a build request has empty transaction bytes and no txid. -/
theorem claim9_witness :
    (generate_proof envParams ⟨"bogus", .jobj []⟩).body.proof = [] ∧
    ((⟨501, [], none,
        some (buildLimitMsg ⟨"k", "f", "t", "1", [], none⟩)⟩ :
          BuildHttp).body.raw_transaction = [] ∧
      (⟨501, [], none,
        some (buildLimitMsg ⟨"k", "f", "t", "1", [], none⟩)⟩ :
          BuildHttp).body.txid = none) :=
  ⟨(claim9_envelope envParams).1 ⟨"bogus", .jobj []⟩ "Invalid proof type: bogus"
     (by decide),
   (claim9_envelope envParams).2 ⟨"k", "f", "t", "1", [], none⟩ _
     (buildLimitMsg ⟨"k", "f", "t", "1", [], none⟩) rfl rfl⟩

/-! ## Claim C10 -/

/-- Claim C10, amended: the spend routine's result depends on the spending key
only through its byte length (`len()` counts bytes, not characters, so two
keys of equal byte length — not merely equal character count — are
indistinguishable), while the output routine echoes the full `toAddress` into
its error message. -/
theorem claim10_amended :
    (∀ (pr₁ pr₂ : Prover) (b₁ b₂ : JValue) (k₁ k₂ : String),
      (b₁.get "spendingKey").bind JValue.as_str = some k₁ →
      (b₂.get "spendingKey").bind JValue.as_str = some k₂ →
      k₁.utf8ByteSize = k₂.utf8ByteSize →
      b₁.get "amount" = b₂.get "amount" →
      generate_spend_proof pr₁ b₁ = generate_spend_proof pr₂ b₂) ∧
    (∀ (pr : Prover) (b : JValue) (t : String) (a : Nat),
      (b.get "toAddress").bind JValue.as_str = some t →
      extractAmount b = some a →
      ∃ m, generate_output_proof pr b = .err m ∧ containsStr m t) := by
  constructor
  · intro pr₁ pr₂ b₁ b₂ k₁ k₂ hk₁ hk₂ hlen hamt
    have hext : extractAmount b₁ = extractAmount b₂ := by
      rw [extractAmount, extractAmount, hamt]
    simp only [generate_spend_proof, hk₁, hk₂, hext]
    cases he : extractAmount b₂ with
    | none => rfl
    | some a => rw [hlen]
  · intro pr b t a ht ha
    refine ⟨outputLimitMsg t a, by simp [generate_output_proof, ht, ha], ?_⟩
    rw [outputLimitMsg]
    exact ⟨"Output proof generation requires payment address decoding.\n\n✅ SIMPLEST SOLUTION: Use lightwalletd" ++
        sq ++
        "s transaction building API\n\nLightwalletd can build complete transactions with real Groth16 proofs via:\n- gRPC SendTransaction method\n- Handles address decoding, note construction, and proof generation\n\nCurrent params: toAddress=",
      ", amount=" ++ Nat.repr a ++
        "\n\nSee PROOF_GENERATION_SOLUTION.md for implementation guide.",
      by simp only [String.append_assoc]⟩

/-- Witness for C10: two keys of equal byte length produce identical results,
and an output error echoes its address. -/
theorem claim10_witness :
    generate_spend_proof .libDefault
        (.jobj [("spendingKey", .jstr "aa"), ("amount", .jnum (.uint 5))]) =
      generate_spend_proof .libDefault
        (.jobj [("spendingKey", .jstr "bb"), ("amount", .jnum (.uint 5))]) ∧
    ∃ m, generate_output_proof .libDefault
        (.jobj [("toAddress", .jstr "zs1dest"), ("amount", .jnum (.uint 9))]) =
          .err m ∧
      containsStr m "zs1dest" :=
  ⟨claim10_amended.1 .libDefault .libDefault _ _ "aa" "bb" rfl rfl rfl rfl,
   claim10_amended.2 .libDefault _ "zs1dest" 9 rfl rfl⟩

/-- Counterexample for C10 as frozen: the keys `"é"` and `"a"` agree in
character count (the claim's "length"), yet the results differ, because the
source interpolates `spending_key.len()` — the byte count — into the error
message (2 bytes vs 1). -/
theorem claim10_counterexample :
    ("é" : String).length = ("a" : String).length ∧
    generate_spend_proof .libDefault
        (.jobj [("spendingKey", .jstr "é"), ("amount", .jnum (.uint 100))]) ≠
      generate_spend_proof .libDefault
        (.jobj [("spendingKey", .jstr "a"), ("amount", .jnum (.uint 100))]) := by
  decide

end ZMail
